import Mathlib

/-!
Verification of `src/mcp_music_analysis/server.py`.

The repository is a thin MCP adapter around the librosa audio library: the
code owned by the repository is the control flow of each tool handler
(filtering and ordering of chroma samples, URL validation, HTTP download and
file overwrite, the static discovery prompt).  All numeric audio analysis is
delegated to librosa, so library outputs (decoded sample counts, beat frames,
chroma matrices and their frame times) enter the model as explicit inputs,
and the documented guarantees of the library appear as hypotheses.

Numbers are modelled as exact rationals (ℚ); `pymod` is the mathematical
content of the Python float `%` operator (floor-based remainder) for a
nonzero divisor.  The frame times iterated by `get_chroma` are NumPy
float64 scalars (the time array is iterated without `.tolist()`), so at
`interval = 0` the expression `t % interval` evaluates to nan with a
RuntimeWarning rather than raising, and `abs(nan) < 1e-2` is False: the
filter passes no frame and the handler returns normally.  Fallible
handlers return `Except PyError`; `raise` is `.error`.
The filesystem/network effects of `download_from_url` are modelled by an
explicit `DownloadState` record (content of the fixed download file, log of
HTTP GETs issued) threaded through the call.
-/

/-- Python exceptions in the model: `ValueError(msg)` from the two
`raise ValueError(...)` sites in `download_from_url`, and
`ZeroDivisionError`, the exception a builtin-float `t % 0` would raise.
The NumPy float64 scalars actually iterated by `get_chroma` never raise it
(`np.float64 % 0` is nan), which the development proves. -/
inductive PyError where
  | zeroDivisionError : PyError
  | valueError (msg : String) : PyError
  deriving DecidableEq

/-- One record appended by `get_chroma`:
`{"note": note_name, "time": t, "amplitude": amplitude}`. -/
structure ChromaSample where
  note : String
  time : ℚ
  amplitude : ℚ
  deriving DecidableEq

/-- The Python float modulo `a % b` for `b ≠ 0`: the floor-based remainder
`a - b * floor (a / b)` (exact over ℚ). -/
def pymod (a b : ℚ) : ℚ := a - b * ⌊a / b⌋

/-- The fixed pitch-class labels of `get_chroma`, in source order:
`notes = ["C", "C#", ..., "B"]`. -/
def notes : List String :=
  ["C", "C#", "D", "D#", "E", "F"] ++ ["F#", "G", "G#", "A", "A#", "B"]

/-- The per-frame test of `get_chroma`, as a boolean:
`t >= offset and abs(t % interval) < 1e-2`.  At `interval = 0` the
remainder of the NumPy float64 scalar `t` is nan and the comparison is
False, so no frame passes; for `interval ≠ 0` it is the exact
floor-remainder test. -/
def passes (offset interval t : ℚ) : Bool :=
  decide (offset ≤ t) &&
    (if interval = 0 then false else decide (|pymod t interval| < 1/100))

/-- One evaluation of the condition `t >= offset and abs(t % interval) < 1e-2`
in `get_chroma`.  The Python `and` operator short-circuits, so
`t % interval` is only evaluated when `t >= offset` holds; `t` is a NumPy
float64 scalar, so `t % 0` yields nan with a RuntimeWarning instead of
raising, and `abs(nan) < 1e-2` is False.  The evaluation therefore never
produces an error, and is kept in `Except` only because it sits on the
exception-propagating path of the loop. -/
def chromaKeep (offset interval t : ℚ) : Except PyError Bool :=
  if offset ≤ t then
    if interval = 0 then .ok false
    else .ok (decide (|pymod t interval| < 1/100))
  else .ok false

/-- The inner loop of `get_chroma` over one pitch-class row:
`for t, amplitude in zip(time_seconds, chroma_cq[i]): if ...: data_list.append(...)`.
An exception aborts the whole call, so the partially built list is discarded. -/
def chromaRow (note_name : String) (offset interval : ℚ) :
    List (ℚ × ℚ) → Except PyError (List ChromaSample)
  | [] => .ok []
  | (t, amplitude) :: rest =>
    match chromaKeep offset interval t with
    | .error e => .error e
    | .ok keep =>
      match chromaRow note_name offset interval rest with
      | .error e => .error e
      | .ok tail =>
        .ok (if keep then
              { note := note_name, time := t, amplitude := amplitude } :: tail
            else tail)

/-- The outer loop of `get_chroma` over `enumerate(notes)` paired with the
rows of the chroma matrix. -/
def chromaAll (offset interval : ℚ) (time_seconds : List ℚ) :
    List (String × List ℚ) → Except PyError (List ChromaSample)
  | [] => .ok []
  | (note_name, row) :: rest =>
    match chromaRow note_name offset interval (time_seconds.zip row) with
    | .error e => .error e
    | .ok first =>
      match chromaAll offset interval time_seconds rest with
      | .error e => .error e
      | .ok others => .ok (first ++ others)

/-- The block of output records contributed by one `(note, row)` pair of
`get_chroma` when no exception occurs: the frames passing the filter, in
frame order, tagged with the pitch-class label. -/
def chromaBlock (offset interval : ℚ) (time_seconds : List ℚ)
    (p : String × List ℚ) : List ChromaSample :=
  ((time_seconds.zip p.2).filter (fun q => passes offset interval q.1)).map
    (fun q => { note := p.1, time := q.1, amplitude := q.2 })

/-- The `get_chroma` handler after the two librosa calls.  `time_seconds`
abstracts `librosa.frames_to_time(np.arange(chroma_cq.shape[1]))` (an
ascending list of frame times) and `chroma_cq` the rows of the chroma
matrix (always 12 rows of `shape[1]` columns each). -/
def get_chroma (offset interval : ℚ) (time_seconds : List ℚ)
    (chroma_cq : List (List ℚ)) : Except PyError (List ChromaSample) :=
  chromaAll offset interval time_seconds (notes.zip chroma_cq)

/-- The librosa default frame-to-time conversion used by `get_beats` (and by
`get_chroma` for its frame times): `frames_to_time(f) = f * 512 / 22050`
(hop length 512, sample rate 22050). -/
def frames_to_time (f : ℕ) : ℚ := (f : ℚ) * 512 / 22050

/-- The `get_beats` handler after `librosa.beat.beat_track`:
`times = librosa.frames_to_time(frames); return times.tolist()`.
`beat_frames` abstracts the frame indices returned by the library. -/
def get_beats (beat_frames : List ℕ) : List ℚ :=
  beat_frames.map frames_to_time

/-- The `get_duration` handler after `librosa.load`:
`librosa.get_duration(y=y)` at the default rate is
`(number of samples) / 22050`. -/
def get_duration (n_samples : ℕ) : ℚ := (n_samples : ℚ) / 22050

/-- HTTP response as observed by `download_from_url`: `status_code` and the
raw byte `content`. -/
structure HttpResponse where
  status_code : ℕ
  content : List ℕ
  deriving DecidableEq

/-- The process-visible effects of `download_from_url`: the content of the
fixed file `<tmpdir>/downloaded_file` (`none` if never written) and the log
of URLs fetched with `requests.get`, in order. -/
structure DownloadState where
  downloadedFile : Option (List ℕ)
  httpGets : List String
  deriving DecidableEq

/-- The Python method `str.endswith`: byte-exact, case-sensitive suffix test. -/
def endswith (s suffixStr : String) : Bool :=
  suffixStr.data.isSuffixOf s.data

/-- Message of `raise ValueError(f"URL: {url} is not a valid audio file")`. -/
def validationMsg (url : String) : String :=
  "URL: " ++ url ++ " is not a valid audio file"

/-- Message of `raise ValueError(f"Failed to download file from URL: {url}")`. -/
def fetchMsg (url : String) : String :=
  "Failed to download file from URL: " ++ url

/-- The `download_from_url` handler.  `net` abstracts `requests.get` (the
response the network would give for each URL); `tmpdir` abstracts
`tempfile.gettempdir()`, and `os.path.join(tmpdir, "downloaded_file")` is
`tmpdir ++ "/downloaded_file"`.  The returned pair is (result, final state):
issuing `requests.get` appends the URL to `httpGets`, and the `open(...,"wb")`
write replaces `downloadedFile` with the full response body. -/
def download_from_url (net : String → HttpResponse) (tmpdir url : String)
    (st : DownloadState) : Except PyError String × DownloadState :=
  if !(endswith url ".mp3") && !(endswith url ".wav") then
    (.error (.valueError (validationMsg url)), st)
  else
    let response := net url
    let st1 : DownloadState := { st with httpGets := st.httpGets ++ [url] }
    if response.status_code = 200 then
      (.ok (tmpdir ++ "/downloaded_file"),
        { st1 with downloadedFile := some response.content })
    else
      (.error (.valueError (fetchMsg url)), st1)

/-- The `analyze_audio` prompt: the exact string literal returned by the
source (Python adjacent string literals concatenate). -/
def analyze_audio : String :=
  "Welcome to the Music Analysis MCP! Please provide "
  ++ "the path to an audio file and call the tools listed below to extract "
  ++ "various audio features.\n\nAvailable tools:\n"
  ++ "- get_tempo(file_path: str, offset: float = 0.0, duration: float = None) -> float\n"
  ++ "- get_beats(file_path: str, offset: float = 0.0, duration: float = None) -> list\n"
  ++ "- get_chroma(file_path: str, offset: float = 0.0, duration: float = None, fmin: float = None, n_octaves: int = 7, interval: float = 1.0) -> list\n"
  ++ "- get_duration(file_path: str) -> float\n"
  ++ "- download_from_url(url: str) -> str\n"
  ++ "- download_from_youtube(youtube_url: str) -> str\n"

/-- Extension check of `download_from_url`, as the claims phrase it. -/
def validExt (url : String) : Prop :=
  endswith url ".mp3" = true ∨ endswith url ".wav" = true

instance (url : String) : Decidable (validExt url) := by
  unfold validExt
  infer_instance

theorem length_validationMsg (url : String) :
    (validationMsg url).length = url.length + 31 := by
  have h1 : ("URL: " : String).length = 5 := rfl
  have h2 : (" is not a valid audio file" : String).length = 26 := rfl
  simp [validationMsg, String.length_append, h1, h2]
  omega

theorem length_fetchMsg (url : String) :
    (fetchMsg url).length = url.length + 34 := by
  have h1 : ("Failed to download file from URL: " : String).length = 34 := rfl
  simp [fetchMsg, String.length_append, h1]
  omega

theorem fetchMsg_ne_validationMsg (url : String) :
    fetchMsg url ≠ validationMsg url := by
  intro h
  have := congrArg String.length h
  rw [length_fetchMsg, length_validationMsg] at this
  omega

theorem download_of_invalid (net : String → HttpResponse) (tmpdir url : String)
    (st : DownloadState) (h : ¬ validExt url) :
    download_from_url net tmpdir url st
      = (.error (.valueError (validationMsg url)), st) := by
  have hb : (!(endswith url ".mp3") && !(endswith url ".wav")) = true := by
    simp only [validExt, not_or] at h
    simp [h.1, h.2]
  simp [download_from_url, hb]

theorem download_of_valid_200 (net : String → HttpResponse) (tmpdir url : String)
    (st : DownloadState) (hext : validExt url)
    (h200 : (net url).status_code = 200) :
    download_from_url net tmpdir url st
      = (.ok (tmpdir ++ "/downloaded_file"),
          { downloadedFile := some (net url).content,
            httpGets := st.httpGets ++ [url] }) := by
  have hb : (!(endswith url ".mp3") && !(endswith url ".wav")) = false := by
    rcases hext with h | h <;> simp [h]
  simp [download_from_url, hb, h200]

theorem download_of_valid_not200 (net : String → HttpResponse) (tmpdir url : String)
    (st : DownloadState) (hext : validExt url)
    (h200 : (net url).status_code ≠ 200) :
    download_from_url net tmpdir url st
      = (.error (.valueError (fetchMsg url)),
          { downloadedFile := st.downloadedFile,
            httpGets := st.httpGets ++ [url] }) := by
  have hb : (!(endswith url ".mp3") && !(endswith url ".wav")) = false := by
    rcases hext with h | h <;> simp [h]
  simp [download_from_url, hb, h200]

/-- Claim C3: `download_from_url url` raises the validation `ValueError`
(message `"URL: {url} is not a valid audio file"`) exactly when `url` does
not end (byte-exact, case-sensitive) in `".mp3"` or `".wav"`, and in that
case it performs no network call (the HTTP GET log is unchanged) and leaves
the state entirely untouched. -/
theorem download_from_url_validation (net : String → HttpResponse)
    (tmpdir url : String) (st : DownloadState) :
    ((download_from_url net tmpdir url st).1
        = .error (.valueError (validationMsg url)) ↔ ¬ validExt url)
    ∧ (¬ validExt url →
        (download_from_url net tmpdir url st).2.httpGets = st.httpGets
        ∧ (download_from_url net tmpdir url st).2 = st) := by
  by_cases hext : validExt url
  · constructor
    · constructor
      · intro hres
        by_cases h200 : (net url).status_code = 200
        · rw [download_of_valid_200 net tmpdir url st hext h200] at hres
          exact absurd hres (by simp)
        · rw [download_of_valid_not200 net tmpdir url st hext h200] at hres
          simp only [Prod.fst] at hres
          have : fetchMsg url = validationMsg url := by
            have := Except.error.inj hres
            exact PyError.valueError.inj this
          exact absurd this (fetchMsg_ne_validationMsg url)
      · intro h
        exact absurd hext h
    · intro h
      exact absurd hext h
  · rw [download_of_invalid net tmpdir url st hext]
    simp [hext]

/-- Claim C4: with a valid extension, `download_from_url` raises the fetch
`ValueError` exactly when the HTTP status is not 200, and the error message
contains the offending URL. -/
theorem download_from_url_fetch_error (net : String → HttpResponse)
    (tmpdir url : String) (st : DownloadState) (hext : validExt url) :
    ((download_from_url net tmpdir url st).1
        = .error (.valueError (fetchMsg url)) ↔ (net url).status_code ≠ 200)
    ∧ (∃ s, fetchMsg url = s ++ url) := by
  constructor
  · constructor
    · intro hres h200
      rw [download_of_valid_200 net tmpdir url st hext h200] at hres
      exact absurd hres (by simp)
    · intro h200
      rw [download_of_valid_not200 net tmpdir url st hext h200]
  · exact ⟨"Failed to download file from URL: ", rfl⟩

/-- Witness for C4 at `url = "a.mp3"` against a network returning 404. -/
theorem download_from_url_fetch_error_witness :
    validExt "a.mp3"
    ∧ (((download_from_url (fun _ => ⟨404, [1, 2]⟩) "/tmp" "a.mp3"
          ⟨none, []⟩).1
        = .error (.valueError (fetchMsg "a.mp3"))
        ↔ ((fun _ => (⟨404, [1, 2]⟩ : HttpResponse)) "a.mp3").status_code ≠ 200)
      ∧ (∃ s, fetchMsg "a.mp3" = s ++ "a.mp3")) :=
  ⟨by decide,
   download_from_url_fetch_error (fun _ => ⟨404, [1, 2]⟩) "/tmp" "a.mp3"
     ⟨none, []⟩ (by decide)⟩

/-- Claim C5: on success (valid extension, status 200) the full response body
is written to the single fixed path `tmpdir ++ "/downloaded_file"`,
overwriting whatever was there, and exactly that path is returned; a second
successful call with a different body leaves the second body as the complete
content of the same path. -/
theorem download_from_url_success_overwrite (net : String → HttpResponse)
    (tmpdir url : String) (st : DownloadState) (hext : validExt url)
    (h200 : (net url).status_code = 200) :
    (download_from_url net tmpdir url st).1 = .ok (tmpdir ++ "/downloaded_file")
    ∧ (download_from_url net tmpdir url st).2.downloadedFile
        = some (net url).content
    ∧ (∀ net2 url2, validExt url2 → (net2 url2).status_code = 200 →
        (download_from_url net2 tmpdir url2
            (download_from_url net tmpdir url st).2).1
          = .ok (tmpdir ++ "/downloaded_file")
        ∧ (download_from_url net2 tmpdir url2
            (download_from_url net tmpdir url st).2).2.downloadedFile
          = some (net2 url2).content) := by
  rw [download_of_valid_200 net tmpdir url st hext h200]
  refine ⟨rfl, rfl, ?_⟩
  intro net2 url2 hext2 h2002
  rw [download_of_valid_200 net2 tmpdir url2 _ hext2 h2002]
  exact ⟨rfl, rfl⟩

/-- Witness for C5: two successive successful downloads with different
bodies; the second body is the final content of the fixed path. -/
theorem download_from_url_success_overwrite_witness :
    validExt "a.wav"
    ∧ ((download_from_url (fun _ => ⟨200, [7]⟩) "/tmp" "a.wav" ⟨none, []⟩).1
        = .ok ("/tmp" ++ "/downloaded_file")
      ∧ (download_from_url (fun _ => ⟨200, [7]⟩) "/tmp" "a.wav"
          ⟨none, []⟩).2.downloadedFile
        = some ((fun _ => (⟨200, [7]⟩ : HttpResponse)) "a.wav").content
      ∧ (∀ net2 url2, validExt url2 → (net2 url2).status_code = 200 →
          (download_from_url net2 "/tmp" url2
              (download_from_url (fun _ => ⟨200, [7]⟩) "/tmp" "a.wav"
                ⟨none, []⟩).2).1
            = .ok ("/tmp" ++ "/downloaded_file")
          ∧ (download_from_url net2 "/tmp" url2
              (download_from_url (fun _ => ⟨200, [7]⟩) "/tmp" "a.wav"
                ⟨none, []⟩).2).2.downloadedFile
            = some (net2 url2).content)) :=
  ⟨by decide,
   download_from_url_success_overwrite (fun _ => ⟨200, [7]⟩) "/tmp" "a.wav"
     ⟨none, []⟩ (by decide) (by decide)⟩

/-- Claim C9: whenever `download_from_url` raises (validation or fetch), no
file write happens: the fixed download file keeps its previous content. -/
theorem download_from_url_error_atomic (net : String → HttpResponse)
    (tmpdir url : String) (st : DownloadState) (e : PyError)
    (herr : (download_from_url net tmpdir url st).1 = .error e) :
    (download_from_url net tmpdir url st).2.downloadedFile
      = st.downloadedFile := by
  by_cases hext : validExt url
  · by_cases h200 : (net url).status_code = 200
    · rw [download_of_valid_200 net tmpdir url st hext h200] at herr ⊢
      exact absurd herr (by simp)
    · rw [download_of_valid_not200 net tmpdir url st hext h200]
  · rw [download_of_invalid net tmpdir url st hext]

/-- Witness for C9 at a 404 response with a previously downloaded body
`[9]`: the body survives the failed call. -/
theorem download_from_url_error_atomic_witness :
    (download_from_url (fun _ => ⟨404, [1]⟩) "/tmp" "a.mp3"
        ⟨some [9], []⟩).1 = .error (.valueError (fetchMsg "a.mp3"))
    ∧ (download_from_url (fun _ => ⟨404, [1]⟩) "/tmp" "a.mp3"
        ⟨some [9], []⟩).2.downloadedFile
      = (⟨some [9], []⟩ : DownloadState).downloadedFile :=
  ⟨rfl,
   download_from_url_error_atomic (fun _ => ⟨404, [1]⟩) "/tmp" "a.mp3"
     ⟨some [9], []⟩ (.valueError (fetchMsg "a.mp3")) rfl⟩

theorem chromaKeep_eq (offset interval t : ℚ) :
    chromaKeep offset interval t = .ok (passes offset interval t) := by
  unfold chromaKeep passes
  by_cases hot : offset ≤ t
  · by_cases hi : interval = 0 <;> simp [hot, hi]
  · simp [hot]

theorem chromaRow_eq (note_name : String) (offset interval : ℚ)
    (pairs : List (ℚ × ℚ)) :
    chromaRow note_name offset interval pairs
      = .ok ((pairs.filter (fun q => passes offset interval q.1)).map
          (fun q => { note := note_name, time := q.1, amplitude := q.2 })) := by
  induction pairs with
  | nil => rfl
  | cons hd tl ih =>
    obtain ⟨t, a⟩ := hd
    by_cases hp : passes offset interval t
    · simp [chromaRow, chromaKeep_eq offset interval t, ih,
        List.filter, hp]
    · simp [chromaRow, chromaKeep_eq offset interval t, ih,
        List.filter, hp]

theorem chromaAll_eq (offset interval : ℚ) (ts : List ℚ)
    (pairs : List (String × List ℚ)) :
    chromaAll offset interval ts pairs
      = .ok (pairs.flatMap (chromaBlock offset interval ts)) := by
  induction pairs with
  | nil => rfl
  | cons hd tl ih =>
    obtain ⟨note_name, row⟩ := hd
    simp [chromaAll, chromaRow_eq note_name offset interval, ih,
      chromaBlock, List.flatMap_cons]

theorem passes_zero (offset t : ℚ) : passes offset 0 t = false := by
  unfold passes
  by_cases hot : offset ≤ t <;> simp [hot]

theorem passes_le (offset interval t : ℚ)
    (h : passes offset interval t = true) : offset ≤ t := by
  simp only [passes, Bool.and_eq_true, decide_eq_true_eq] at h
  exact h.1

/-- Claim C10 as frozen is false of the program: the frame times iterated
by `get_chroma` are NumPy float64 scalars (the time array is iterated
without `.tolist()`), for which `t % 0` evaluates to nan with a
RuntimeWarning rather than raising, and `abs(nan) < 1e-2` is False.  At a
concrete input whose frame time 0 satisfies `t >= offset`, the call
returns the empty list normally and raises no `ZeroDivisionError`. -/
theorem get_chroma_zero_interval_cex :
    (∃ t ∈ [(0:ℚ)], (0:ℚ) ≤ t)
    ∧ get_chroma 0 0 [0] (List.replicate 12 [1]) = .ok []
    ∧ get_chroma 0 0 [0] (List.replicate 12 [1])
        ≠ .error PyError.zeroDivisionError := by
  refine ⟨by decide, rfl, ?_⟩
  intro h
  exact Except.noConfusion
    ((rfl : get_chroma 0 0 [0] (List.replicate 12 [1]) = .ok []).symm.trans h)

/-- Claim C10 (amended): calling `get_chroma` with `interval = 0` returns
normally with the empty list — the filter evaluates `t % 0` on a NumPy
float64 scalar, which yields nan, and `abs(nan) < 1e-2` is False, so no
frame is appended — instead of raising `ZeroDivisionError`. -/
theorem get_chroma_zero_interval_nil (offset : ℚ) (time_seconds : List ℚ)
    (chroma_cq : List (List ℚ)) :
    get_chroma offset 0 time_seconds chroma_cq = .ok [] := by
  rw [get_chroma, chromaAll_eq]
  have hb : ∀ p ∈ notes.zip chroma_cq,
      chromaBlock offset 0 time_seconds p = [] := by
    intro p _
    unfold chromaBlock
    have hf : (time_seconds.zip p.2).filter
        (fun q => passes offset 0 q.1) = [] :=
      List.filter_eq_nil_iff.mpr (fun q _ => by simp [passes_zero])
    rw [hf, List.map_nil]
  rw [List.flatMap_eq_nil_iff.mpr hb]

theorem passes_iff (offset interval t : ℚ) (h : interval ≠ 0) :
    passes offset interval t = true
      ↔ offset ≤ t ∧ |pymod t interval| < 1/100 := by
  simp [passes, h]

theorem mem_chromaBlock (offset interval : ℚ) (ts : List ℚ)
    (p : String × List ℚ) (s : ChromaSample)
    (h : s ∈ chromaBlock offset interval ts p) :
    s.note = p.1 ∧ passes offset interval s.time = true := by
  unfold chromaBlock at h
  obtain ⟨q, hq, hs⟩ := List.mem_map.mp h
  have hp := List.of_mem_filter hq
  subst hs
  exact ⟨rfl, by simpa using hp⟩

theorem chromaBlock_times_sorted (offset interval : ℚ) (ts : List ℚ)
    (p : String × List ℚ) (hts : ts.Sorted (· < ·))
    (hlen : ts.length ≤ p.2.length) :
    ((chromaBlock offset interval ts p).map ChromaSample.time).Sorted
      (· < ·) := by
  unfold chromaBlock
  rw [List.map_map]
  have h1 : (ChromaSample.time ∘ fun q : ℚ × ℚ =>
      ({ note := p.1, time := q.1, amplitude := q.2 } : ChromaSample))
      = Prod.fst := by
    funext q
    rfl
  rw [h1]
  have hsub :
      ((ts.zip p.2).filter (fun q => passes offset interval q.1)).Sublist
        (ts.zip p.2) :=
    List.filter_sublist _
  have hmap := hsub.map Prod.fst
  rw [List.map_fst_zip ts p.2 hlen] at hmap
  exact List.Pairwise.sublist hmap hts

theorem chromaBlock_mem_of (offset interval : ℚ) (ts : List ℚ)
    (p : String × List ℚ) (hlen : p.2.length = ts.length)
    (t : ℚ) (ht : t ∈ ts) (hpass : passes offset interval t = true) :
    ∃ a, ({ note := p.1, time := t, amplitude := a } : ChromaSample)
      ∈ chromaBlock offset interval ts p := by
  obtain ⟨⟨j, hj⟩, hget⟩ := List.mem_iff_get.mp ht
  have hjz : j < (ts.zip p.2).length := by
    have : (ts.zip p.2).length = ts.length := by
      rw [List.length_zip, hlen, Nat.min_self]
    omega
  refine ⟨p.2.get ⟨j, by omega⟩, ?_⟩
  unfold chromaBlock
  apply List.mem_map.mpr
  refine ⟨(t, p.2.get ⟨j, by omega⟩), ?_, rfl⟩
  apply List.mem_filter.mpr
  constructor
  · have hin := List.get_mem (ts.zip p.2) j hjz
    have hval : (ts.zip p.2).get ⟨j, hjz⟩ = (t, p.2.get ⟨j, by omega⟩) := by
      simp only [List.get_eq_getElem, List.getElem_zip]
      rw [Prod.ext_iff]
      constructor
      · simpa [List.get_eq_getElem] using hget
      · simp [List.get_eq_getElem]
    rwa [hval] at hin
  · simpa using hpass

/-- A concrete `get_chroma` output used to exhibit the global ordering: with
two frame times 0 and 1 and `interval = 1`, both frames pass the filter for
every pitch class, so each pitch-class block repeats times `[0, 1]`. -/
def badChroma : List ChromaSample :=
  notes.flatMap (fun note_name =>
    [{ note := note_name, time := 0, amplitude := 1 },
     { note := note_name, time := 1, amplitude := 1 }])

theorem get_chroma_example :
    get_chroma 0 1 [0, 1] (List.replicate 12 [1, 1]) = .ok badChroma := by
  have h0 : chromaKeep 0 1 0 = .ok true := by
    norm_num [chromaKeep, pymod]
  have h1 : chromaKeep 0 1 1 = .ok true := by
    norm_num [chromaKeep, pymod]
  simp [get_chroma, notes, chromaAll, chromaRow, h0, h1, badChroma,
    List.replicate]

theorem badChroma_not_time_sorted :
    ¬ (badChroma.map ChromaSample.time).Sorted (· ≤ ·) := by decide

/-- Claim C1: for `interval > 0`, a `(pitch-class, frame-time)` pair is in
the `get_chroma` output iff `t >= offset` and `t % interval` is within
`1e-2` of zero; the output is the concatenation, over the 12 pitch classes
in the fixed order C, C#, ..., B, of the passing frames of that pitch class in
ascending time order — hence it is not globally time-sorted (witnessed by a
concrete run whose time column decreases). -/
theorem get_chroma_filter_and_order (offset interval : ℚ) (ts : List ℚ)
    (cq : List (List ℚ)) (hpos : 0 < interval) (h12 : cq.length = 12)
    (hrows : ∀ r ∈ cq, r.length = ts.length) (hts : ts.Sorted (· < ·)) :
    ∃ out, get_chroma offset interval ts cq = .ok out
      ∧ out = (notes.zip cq).flatMap (chromaBlock offset interval ts)
      ∧ (∀ s ∈ out, offset ≤ s.time ∧ |pymod s.time interval| < 1/100)
      ∧ (∀ note_name ∈ notes, ∀ t ∈ ts,
          offset ≤ t → |pymod t interval| < 1/100 →
          ∃ a, ({ note := note_name, time := t, amplitude := a } :
            ChromaSample) ∈ out)
      ∧ (∀ p ∈ notes.zip cq,
          ((chromaBlock offset interval ts p).map ChromaSample.time).Sorted
            (· < ·))
      ∧ (∃ bad, get_chroma 0 1 [0, 1] (List.replicate 12 [1, 1]) = .ok bad
          ∧ ¬ (bad.map ChromaSample.time).Sorted (· ≤ ·)) := by
  have hne : interval ≠ 0 := ne_of_gt hpos
  refine ⟨(notes.zip cq).flatMap (chromaBlock offset interval ts),
    chromaAll_eq offset interval ts (notes.zip cq), rfl, ?_, ?_, ?_, ?_⟩
  · intro s hs
    obtain ⟨p, hp, hsp⟩ := List.mem_flatMap.mp hs
    exact (passes_iff offset interval s.time hne).mp
      (mem_chromaBlock offset interval ts p s hsp).2
  · intro note_name hname t ht hot hmod
    obtain ⟨⟨i, hi⟩, hgeti⟩ := List.mem_iff_get.mp hname
    have hlen12 : notes.length = 12 := rfl
    have hiz : i < (notes.zip cq).length := by
      rw [List.length_zip, hlen12, h12, Nat.min_self]
      omega
    have hpmem : (notes.zip cq).get ⟨i, hiz⟩ ∈ notes.zip cq :=
      List.get_mem _ i hiz
    have hp1 : ((notes.zip cq).get ⟨i, hiz⟩).1 = note_name := by
      simp only [List.get_eq_getElem, List.getElem_zip]
      simpa [List.get_eq_getElem] using hgeti
    have hp2 : ((notes.zip cq).get ⟨i, hiz⟩).2.length = ts.length :=
      hrows _ (List.of_mem_zip hpmem).2
    obtain ⟨a, ha⟩ := chromaBlock_mem_of offset interval ts
      ((notes.zip cq).get ⟨i, hiz⟩) hp2 t ht
      ((passes_iff offset interval t hne).mpr ⟨hot, hmod⟩)
    rw [hp1] at ha
    exact ⟨a, List.mem_flatMap.mpr ⟨(notes.zip cq).get ⟨i, hiz⟩, hpmem, ha⟩⟩
  · intro p hp
    exact chromaBlock_times_sorted offset interval ts p hts
      (le_of_eq (hrows p.2 (List.of_mem_zip hp).2).symm)
  · exact ⟨badChroma, get_chroma_example, badChroma_not_time_sorted⟩

/-- Witness for C1 at the empty chroma matrix (12 rows, 0 frames). -/
theorem get_chroma_filter_and_order_witness :
    ∃ out, get_chroma 0 1 [] (List.replicate 12 ([] : List ℚ)) = .ok out := by
  obtain ⟨out, h, -⟩ := get_chroma_filter_and_order 0 1 []
    (List.replicate 12 []) (by decide) (by decide) (by decide) (by decide)
  exact ⟨out, h⟩

theorem length_filter_zip (p : ℚ → Bool) :
    ∀ (l1 : List ℚ) (l2 : List ℚ), l1.length ≤ l2.length →
      ((l1.zip l2).filter (fun q => p q.1)).length = (l1.filter p).length
  | [], _, _ => by simp
  | a :: l1, [], h => by simp at h
  | a :: l1, b :: l2, h => by
    have ih := length_filter_zip p l1 l2 (by simpa using h)
    rw [List.zip_cons_cons]
    by_cases hp : p a <;>
      simp only [List.filter, hp, List.length_cons] <;>
      simp only [ih]

theorem chromaBlock_length (offset interval : ℚ) (ts : List ℚ)
    (p : String × List ℚ) (hlen : p.2.length = ts.length) :
    (chromaBlock offset interval ts p).length
      = (ts.filter (fun t => passes offset interval t)).length := by
  unfold chromaBlock
  rw [List.length_map]
  exact length_filter_zip (fun t => passes offset interval t) ts p.2
    (le_of_eq hlen.symm)

theorem chromaFlat_length (offset interval : ℚ) (ts : List ℚ) :
    ∀ pairs : List (String × List ℚ),
      (∀ p ∈ pairs, p.2.length = ts.length) →
      (pairs.flatMap (chromaBlock offset interval ts)).length
        = pairs.length * (ts.filter (fun t => passes offset interval t)).length
  | [], _ => by simp
  | p :: tl, h => by
    have ih := chromaFlat_length offset interval ts tl
      (fun q hq => h q (by simp [hq]))
    have hb := chromaBlock_length offset interval ts p (h p (by simp))
    simp only [List.flatMap_cons, List.length_append, hb, ih,
      List.length_cons]
    ring

/-- Claim C2: whenever `get_chroma` returns normally, the output length is
`12 ×` the number of frame times passing the interval filter (one sample per
pitch class per passing frame), the `note` field of every record is one of
the 12 fixed labels, and the `time` field of every record is `>= offset`. -/
theorem get_chroma_shape (offset interval : ℚ) (ts : List ℚ)
    (cq : List (List ℚ)) (out : List ChromaSample) (h12 : cq.length = 12)
    (hrows : ∀ r ∈ cq, r.length = ts.length)
    (hok : get_chroma offset interval ts cq = .ok out) :
    out.length = 12 * (ts.filter (fun t => passes offset interval t)).length
    ∧ (∀ s ∈ out, s.note ∈ notes)
    ∧ (∀ s ∈ out, offset ≤ s.time) := by
  have heq := chromaAll_eq offset interval ts (notes.zip cq)
  rw [get_chroma, heq] at hok
  have hout : out = (notes.zip cq).flatMap (chromaBlock offset interval ts) :=
    (Except.ok.inj hok).symm
  subst hout
  refine ⟨?_, ?_, ?_⟩
  · have hprs : ∀ p ∈ notes.zip cq, p.2.length = ts.length :=
      fun p hp => hrows p.2 (List.of_mem_zip hp).2
    have hlen : (notes.zip cq).length = 12 := by
      have hlen12 : notes.length = 12 := rfl
      rw [List.length_zip, hlen12, h12, Nat.min_self]
    rw [chromaFlat_length offset interval ts (notes.zip cq) hprs, hlen]
  · intro s hs
    obtain ⟨p, hp, hsp⟩ := List.mem_flatMap.mp hs
    rw [(mem_chromaBlock offset interval ts p s hsp).1]
    exact (List.of_mem_zip hp).1
  · intro s hs
    obtain ⟨p, hp, hsp⟩ := List.mem_flatMap.mp hs
    exact passes_le offset interval s.time
      (mem_chromaBlock offset interval ts p s hsp).2

/-- Witness for C2 at the empty chroma matrix: the output is empty and the
frame count is zero. -/
theorem get_chroma_shape_witness :
    ([] : List ChromaSample).length
        = 12 * (([] : List ℚ).filter (fun t => passes 0 1 t)).length
    ∧ (∀ s ∈ ([] : List ChromaSample), s.note ∈ notes)
    ∧ (∀ s ∈ ([] : List ChromaSample), (0:ℚ) ≤ s.time) :=
  get_chroma_shape 0 1 [] (List.replicate 12 []) [] (by decide) (by decide)
    rfl

/-- Claim C6: beat times returned by `get_beats` (frame indices from the
beat tracker converted by `frames_to_time`) form a non-decreasing sequence
of non-negative times, each at most `offset + duration`, for offsets and
durations within the bounds of the file.  The hypotheses are the contract
of the beat tracker: ascending beat frames lying inside the loaded signal, whose sample
count is at most `duration` seconds at the 22050 Hz default rate. -/
theorem get_beats_sorted_bounded (offset duration : ℚ) (n_samples : ℕ)
    (beat_frames : List ℕ) (hoff : 0 ≤ offset)
    (hsorted : beat_frames.Sorted (· ≤ ·))
    (hin : ∀ f ∈ beat_frames, f * 512 ≤ n_samples)
    (hdur : (n_samples : ℚ) ≤ duration * 22050) :
    (get_beats beat_frames).Sorted (· ≤ ·)
    ∧ (∀ t ∈ get_beats beat_frames, 0 ≤ t)
    ∧ (∀ t ∈ get_beats beat_frames, t ≤ offset + duration) := by
  refine ⟨?_, ?_, ?_⟩
  · unfold get_beats
    exact List.Pairwise.map frames_to_time
      (fun a b hab => by
        unfold frames_to_time
        gcongr)
      hsorted
  · intro t ht
    obtain ⟨f, hf, rfl⟩ := List.mem_map.mp ht
    unfold frames_to_time
    positivity
  · intro t ht
    obtain ⟨f, hf, rfl⟩ := List.mem_map.mp ht
    unfold frames_to_time
    have h1 : ((f : ℚ)) * 512 ≤ (n_samples : ℚ) := by
      exact_mod_cast hin f hf
    have h2 : (f : ℚ) * 512 / 22050 ≤ (n_samples : ℚ) / 22050 := by gcongr
    have h3 : (n_samples : ℚ) / 22050 ≤ duration := by
      rw [div_le_iff₀ (by norm_num : (0:ℚ) < 22050)]
      linarith
    linarith

/-- Witness for C6: one second of audio (22050 samples) with beat frames
0, 10, 43. -/
theorem get_beats_sorted_bounded_witness :
    (get_beats [0, 10, 43]).Sorted (· ≤ ·)
    ∧ (∀ t ∈ get_beats [0, 10, 43], 0 ≤ t)
    ∧ (∀ t ∈ get_beats [0, 10, 43], t ≤ 0 + 1) :=
  get_beats_sorted_bounded 0 1 22050 [0, 10, 43] (by decide) (by decide)
    (by decide) (by simp)

/-- Claim C7: `get_duration` is non-negative and a pure function of the
decoded audio (same input, same value; the handler mutates no
process-visible state, which the embedding expresses by being a function). -/
theorem get_duration_nonneg_pure (n_samples : ℕ) :
    0 ≤ get_duration n_samples
    ∧ (∀ m : ℕ, m = n_samples → get_duration m = get_duration n_samples) := by
  constructor
  · unfold get_duration
    positivity
  · intro m hm
    rw [hm]

set_option maxRecDepth 4000 in
/-- Claim C8: `analyze_audio` is a constant (hence side-effect free) string,
and that string lists the signatures of all six tools: `get_tempo`,
`get_beats`, `get_chroma`, `get_duration`, `download_from_url`,
`download_from_youtube`. -/
theorem analyze_audio_static_enumerates :
    analyze_audio = "Welcome to the Music Analysis MCP! Please provide the path to an audio file and call the tools listed below to extract various audio features.\n\nAvailable tools:\n- get_tempo(file_path: str, offset: float = 0.0, duration: float = None) -> float\n- get_beats(file_path: str, offset: float = 0.0, duration: float = None) -> list\n- get_chroma(file_path: str, offset: float = 0.0, duration: float = None, fmin: float = None, n_octaves: int = 7, interval: float = 1.0) -> list\n- get_duration(file_path: str) -> float\n- download_from_url(url: str) -> str\n- download_from_youtube(youtube_url: str) -> str\n"
    ∧ (∃ s t, analyze_audio = s ++ ("get_tempo(file_path: str, offset: float = 0.0, duration: float = None) -> float" ++ t))
    ∧ (∃ s t, analyze_audio = s ++ ("get_beats(file_path: str, offset: float = 0.0, duration: float = None) -> list" ++ t))
    ∧ (∃ s t, analyze_audio = s ++ ("get_chroma(file_path: str, offset: float = 0.0, duration: float = None, fmin: float = None, n_octaves: int = 7, interval: float = 1.0) -> list" ++ t))
    ∧ (∃ s t, analyze_audio = s ++ ("get_duration(file_path: str) -> float" ++ t))
    ∧ (∃ s t, analyze_audio = s ++ ("download_from_url(url: str) -> str" ++ t))
    ∧ (∃ s t, analyze_audio = s ++ ("download_from_youtube(youtube_url: str) -> str" ++ t)) :=
  ⟨rfl,
   ⟨"Welcome to the Music Analysis MCP! Please provide the path to an audio file and call the tools listed below to extract various audio features.\n\nAvailable tools:\n- ",
    "\n- get_beats(file_path: str, offset: float = 0.0, duration: float = None) -> list\n- get_chroma(file_path: str, offset: float = 0.0, duration: float = None, fmin: float = None, n_octaves: int = 7, interval: float = 1.0) -> list\n- get_duration(file_path: str) -> float\n- download_from_url(url: str) -> str\n- download_from_youtube(youtube_url: str) -> str\n",
    rfl⟩,
   ⟨"Welcome to the Music Analysis MCP! Please provide the path to an audio file and call the tools listed below to extract various audio features.\n\nAvailable tools:\n- get_tempo(file_path: str, offset: float = 0.0, duration: float = None) -> float\n- ",
    "\n- get_chroma(file_path: str, offset: float = 0.0, duration: float = None, fmin: float = None, n_octaves: int = 7, interval: float = 1.0) -> list\n- get_duration(file_path: str) -> float\n- download_from_url(url: str) -> str\n- download_from_youtube(youtube_url: str) -> str\n",
    rfl⟩,
   ⟨"Welcome to the Music Analysis MCP! Please provide the path to an audio file and call the tools listed below to extract various audio features.\n\nAvailable tools:\n- get_tempo(file_path: str, offset: float = 0.0, duration: float = None) -> float\n- get_beats(file_path: str, offset: float = 0.0, duration: float = None) -> list\n- ",
    "\n- get_duration(file_path: str) -> float\n- download_from_url(url: str) -> str\n- download_from_youtube(youtube_url: str) -> str\n",
    rfl⟩,
   ⟨"Welcome to the Music Analysis MCP! Please provide the path to an audio file and call the tools listed below to extract various audio features.\n\nAvailable tools:\n- get_tempo(file_path: str, offset: float = 0.0, duration: float = None) -> float\n- get_beats(file_path: str, offset: float = 0.0, duration: float = None) -> list\n- get_chroma(file_path: str, offset: float = 0.0, duration: float = None, fmin: float = None, n_octaves: int = 7, interval: float = 1.0) -> list\n- ",
    "\n- download_from_url(url: str) -> str\n- download_from_youtube(youtube_url: str) -> str\n",
    rfl⟩,
   ⟨"Welcome to the Music Analysis MCP! Please provide the path to an audio file and call the tools listed below to extract various audio features.\n\nAvailable tools:\n- get_tempo(file_path: str, offset: float = 0.0, duration: float = None) -> float\n- get_beats(file_path: str, offset: float = 0.0, duration: float = None) -> list\n- get_chroma(file_path: str, offset: float = 0.0, duration: float = None, fmin: float = None, n_octaves: int = 7, interval: float = 1.0) -> list\n- get_duration(file_path: str) -> float\n- ",
    "\n- download_from_youtube(youtube_url: str) -> str\n",
    rfl⟩,
   ⟨"Welcome to the Music Analysis MCP! Please provide the path to an audio file and call the tools listed below to extract various audio features.\n\nAvailable tools:\n- get_tempo(file_path: str, offset: float = 0.0, duration: float = None) -> float\n- get_beats(file_path: str, offset: float = 0.0, duration: float = None) -> list\n- get_chroma(file_path: str, offset: float = 0.0, duration: float = None, fmin: float = None, n_octaves: int = 7, interval: float = 1.0) -> list\n- get_duration(file_path: str) -> float\n- download_from_url(url: str) -> str\n- ",
    "\n",
    rfl⟩⟩
